import Mathlib

/-!
Creditum farm deployment scripts.

A shallow embedding of `scripts/deploy/1-vault.js` and `scripts/deploy/3-initialize.js`.

Both files are an `async function main()` followed by
`main().then(() => process.exit(0)).catch((error) => { console.error(error); process.exit(1); })`.
Everything the scripts do is visible as a sequence of events: calls into the contract SDK
(`ethers.getContractFactory`, method calls on the objects the SDK hands back), the way each
call ends, lines written with `console.log` / `console.error`, and `process.exit`.

The SDK is not part of the repository.  It is a parameter of the model: a state machine that
answers every call with a value, a thrown error, or no answer at all.  The theorems quantify
over all such machines and all their states.
-/

set_option linter.unnecessarySeqFocus false

namespace CreditumFarm

/-! ## Values, calls, events -/

/-- JavaScript values that flow through the scripts: string literals, numeric values
(the number `0`, the big-number constant of the SDK) and objects handed out by the SDK,
named by a handle of type `H`. Thrown errors are values as well. -/
inductive Val (H : Type) where
  | str (s : String)
  | num (n : Nat)
  | obj (h : H)
  deriving DecidableEq

/-- A call from a script into the SDK: the global `ethers.getContractFactory(name)`, or a
method call `recv.name(args...)` on a value obtained earlier. -/
inductive Call (H : Type) where
  | getContractFactory (name : String)
  | method (recv : Val H) (name : String) (args : List (Val H))
  deriving DecidableEq

/-- How a step ends: with a value (the call returned and, where the script awaits it, the
promise was fulfilled), with a thrown error (synchronous throw or rejected promise), or
with control never coming back (`halt`: the awaited promise never settles, or the process
has exited). -/
inductive Outcome (H : Type) (α : Type) where
  | value (a : α)
  | throw (e : Val H)
  | halt
  deriving DecidableEq

/-- Observable events of one run, in chronological order. -/
inductive Event (H : Type) where
  | invoke (c : Call H)
  | returned (v : Val H)
  | threw (e : Val H)
  | log (args : List (Val H))
  | error (args : List (Val H))
  | exit (code : Nat)
  deriving DecidableEq

/-- The SDK as seen by the scripts: `respond` answers a call in the current SDK/network
state and gives the next state; `address` reads the `address` property of a contract
object. -/
structure Sdk (H σ : Type) where
  respond : Call H → σ → Outcome H (Val H) × σ
  address : Val H → Val H

/-- State of a run: the SDK/network state and the events so far. -/
structure World (H σ : Type) where
  net : σ
  trace : List (Event H)

/-- A piece of script: runs in a world, ends with an outcome and a new world. -/
def Script (H σ α : Type) : Type := World H σ → Outcome H α × World H σ

/-- Sequencing of statements inside an `async` function, and of `promise.then(f)`: the rest
runs only when the first part ended with a value. -/
def Script.bind {H σ α β : Type} (p : Script H σ α) (f : α → Script H σ β) : Script H σ β :=
  fun w =>
    match p w with
    | (.value a, w1) => f a w1
    | (.throw e, w1) => (.throw e, w1)
    | (.halt, w1) => (.halt, w1)

instance {H σ : Type} : Monad (Script H σ) where
  pure a := fun w => (.value a, w)
  bind := Script.bind

/-- The method `promise.catch(g)`: the handler runs only when the first part threw, and
receives the thrown value. -/
def Script.catch_ {H σ α : Type} (p : Script H σ α) (g : Val H → Script H σ α) :
    Script H σ α :=
  fun w =>
    match p w with
    | (.value a, w1) => (.value a, w1)
    | (.throw e, w1) => g e w1
    | (.halt, w1) => (.halt, w1)

/-- The method `promise.then(f)`. -/
def Script.then_ {H σ α β : Type} (p : Script H σ α) (f : α → Script H σ β) : Script H σ β :=
  Script.bind p f

/-- A call into the SDK. The call is recorded, the SDK answers, and the way the call ends
is recorded (nothing is recorded for a call that never comes back). -/
def call {H σ : Type} (sdk : Sdk H σ) (c : Call H) : Script H σ (Val H) :=
  fun w =>
    match sdk.respond c w.net with
    | (.value v, s) => (.value v, ⟨s, w.trace ++ [.invoke c, .returned v]⟩)
    | (.throw e, s) => (.throw e, ⟨s, w.trace ++ [.invoke c, .threw e]⟩)
    | (.halt, s) => (.halt, ⟨s, w.trace ++ [.invoke c]⟩)

/-- The keyword `await`: the script goes on with the value of the awaited call, or throws
its rejection. The outcome of `call` already is the settled one. -/
def await {H σ α : Type} (p : Script H σ α) : Script H σ α := p

/-- The function `console.log(args...)`: one line on standard output. -/
def consoleLog {H σ : Type} (args : List (Val H)) : Script H σ Unit :=
  fun w => (.value (), ⟨w.net, w.trace ++ [.log args]⟩)

/-- The function `console.error(args...)`: one line on the error stream. -/
def consoleError {H σ : Type} (args : List (Val H)) : Script H σ Unit :=
  fun w => (.value (), ⟨w.net, w.trace ++ [.error args]⟩)

/-- The function `process.exit(code)`: the process ends with this status; control does not
come back. -/
def processExit {H σ α : Type} (code : Nat) : Script H σ α :=
  fun w => (.halt, ⟨w.net, w.trace ++ [.exit code]⟩)

/-- Modelled from the spec: `ethers.constants.MaxUint256` is a constant of the SDK, which is
not part of the repository; the spec calls it the "maximum representable value" of the cap,
an unsigned 256-bit quantity. -/
def MaxUint256 : Nat := 2 ^ 256 - 1

/-! ## scripts/deploy/1-vault.js -/

namespace DeployVault

/-- The function `main` of `1-vault.js`. -/
def main {H σ : Type} (sdk : Sdk H σ) : Script H σ Unit := do
  let Vault ← await (call sdk (.getContractFactory "ReaperVaultv1_4"))
  let wantAddress : Val H := .str "0x1b371a952A3246dAc40530D400d86b5d36655ad1"
  let tokenName : Val H := .str "CUSD-AGEUR Creditum Crypt"
  let tokenSymbol : Val H := .str "rf-CUSD-AGEUR"
  let depositFee : Val H := .num 0
  let tvlCap : Val H := .num MaxUint256
  let vault ← await (call sdk
    (.method Vault "deploy" [wantAddress, tokenName, tokenSymbol, depositFee, tvlCap]))
  let _ ← await (call sdk (.method vault "deployed" []))
  consoleLog [.str "Vault deployed to:", sdk.address vault]

/-- The top level of `1-vault.js`:
`main().then(() => process.exit(0)).catch((error) => { console.error(error); process.exit(1); })`. -/
def script {H σ : Type} (sdk : Sdk H σ) : Script H σ Unit :=
  ((main sdk).then_ (fun _ => processExit 0)).catch_
    (fun error => do
      consoleError [error]
      processExit 1)

end DeployVault

/-! ## scripts/deploy/3-initialize.js -/

namespace InitializeVault

/-- The function `main` of `3-initialize.js`. -/
def main {H σ : Type} (sdk : Sdk H σ) : Script H σ Unit := do
  let vaultAddress : Val H := .str "0x63AFF1c026b79f28990A8E81eEB8b5D4c306DB1B"
  let strategyAddress : Val H := .str "0xd7c7Be67819247eBB8fc8Ec8922b2d101d8514D6"
  let Vault ← await (call sdk (.getContractFactory "ReaperVaultv1_4"))
  let vault ← call sdk (.method Vault "attach" [vaultAddress])
  let _ ← await (call sdk (.method vault "initialize" [strategyAddress]))
  consoleLog [.str "Vault initialized"]

/-- The top level of `3-initialize.js`:
`main().then(() => process.exit(0)).catch((error) => { console.error(error); process.exit(1); })`. -/
def script {H σ : Type} (sdk : Sdk H σ) : Script H σ Unit :=
  ((main sdk).then_ (fun _ => processExit 0)).catch_
    (fun error => do
      consoleError [error]
      processExit 1)

end InitializeVault

/-! ## Observations on a run -/

/-- The events of running a script from SDK/network state `s`. -/
def run {H σ α : Type} (p : Script H σ α) (s : σ) : List (Event H) :=
  (p ⟨s, []⟩).2.trace

/-- The codes passed to `process.exit`, in order. -/
def exits {H : Type} : List (Event H) → List Nat
  | [] => []
  | .exit code :: t => code :: exits t
  | _ :: t => exits t

/-- The code of the first `process.exit` call of a run; `none` when the script never calls
`process.exit`, which is the case exactly when an awaited call never settles. This is what
the script asks for, not yet the status the process ends with: see `processStatus`. -/
def exitCall {H : Type} (t : List (Event H)) : Option Nat := (exits t).head?

/-- The status the process ends with. The rule is the one of the Node runtime, which is not
part of the repository: a `process.exit(code)` call ends the process with `code`; a script
that never calls `process.exit`, because an awaited call never settles, ends once nothing
is left to run, with the default status 0. -/
def processStatus {H : Type} (t : List (Event H)) : Nat :=
  match exitCall t with
  | some code => code
  | none => 0

/-- Lines written to standard output. -/
def stdout {H : Type} : List (Event H) → List (List (Val H))
  | [] => []
  | .log args :: t => args :: stdout t
  | _ :: t => stdout t

/-- Lines written to the error stream. -/
def stderr {H : Type} : List (Event H) → List (List (Val H))
  | [] => []
  | .error args :: t => args :: stderr t
  | _ :: t => stderr t

/-- The SDK calls made, in order. -/
def calls {H : Type} : List (Event H) → List (Call H)
  | [] => []
  | .invoke c :: t => c :: calls t
  | _ :: t => calls t

/-- Whether a call is `ethers.getContractFactory(...)`. -/
def Call.isFactoryLookup {H : Type} : Call H → Bool
  | .getContractFactory _ => true
  | .method _ _ _ => false

/-- Whether a call is a call of the method called `name`. -/
def Call.isMethod {H : Type} (name : String) : Call H → Bool
  | .getContractFactory _ => false
  | .method _ m _ => m == name

/-! ## Names for the calls the scripts make -/

/-- The factory lookup both scripts start with. -/
def lookup {H : Type} : Call H := .getContractFactory "ReaperVaultv1_4"

/-- The call `Vault.deploy(wantAddress, tokenName, tokenSymbol, depositFee, tvlCap)` of
`1-vault.js` on the factory `F`. -/
def DeployVault.deployCall {H : Type} (F : Val H) : Call H :=
  .method F "deploy" [.str "0x1b371a952A3246dAc40530D400d86b5d36655ad1",
    .str "CUSD-AGEUR Creditum Crypt", .str "rf-CUSD-AGEUR", .num 0, .num MaxUint256]

/-- The call `vault.deployed()` of `1-vault.js` on the contract `V`. -/
def DeployVault.deployedCall {H : Type} (V : Val H) : Call H := .method V "deployed" []

/-- The call `Vault.attach(vaultAddress)` of `3-initialize.js` on the factory `F`. -/
def InitializeVault.attachCall {H : Type} (F : Val H) : Call H :=
  .method F "attach" [.str "0x63AFF1c026b79f28990A8E81eEB8b5D4c306DB1B"]

/-- The call `vault.initialize(strategyAddress)` of `3-initialize.js` on the contract `V`. -/
def InitializeVault.initializeCall {H : Type} (V : Val H) : Call H :=
  .method V "initialize" [.str "0xd7c7Be67819247eBB8fc8Ec8922b2d101d8514D6"]

/-! ## A concrete SDK for examples -/

/-- An SDK that replays a prepared list of answers, one per call, and gives no answer once
the list is used up. Objects are numbered; the `address` of object `h` is object
`h + 100`. -/
def replay : Sdk Nat (List (Outcome Nat (Val Nat))) where
  respond _ s :=
    match s with
    | [] => (.halt, [])
    | o :: rest => (o, rest)
  address v :=
    match v with
    | .obj h => .obj (h + 100)
    | _ => .str "undefined"

/-- An SDK in which every call settles: each call returns object 1. -/
def fulfil : Sdk Nat Unit where
  respond _ s := (.value (.obj 1), s)
  address v := v

/-! ## Every run of `1-vault.js` -/

section Runs

variable {H σ : Type}

/-- The seven runs of `1-vault.js`: each of the three calls may give no answer, throw, or
return. -/
theorem deployVault_run_cases (sdk : Sdk H σ) (s : σ) :
    (∃ s1, sdk.respond lookup s = (.halt, s1) ∧
      (DeployVault.main sdk ⟨s, []⟩).1 = .halt ∧
      run (DeployVault.script sdk) s = [.invoke lookup]) ∨
    (∃ e s1, sdk.respond lookup s = (.throw e, s1) ∧
      (DeployVault.main sdk ⟨s, []⟩).1 = .throw e ∧
      run (DeployVault.script sdk) s = [.invoke lookup, .threw e, .error [e], .exit 1]) ∨
    (∃ F s1 s2, sdk.respond lookup s = (.value F, s1) ∧
      sdk.respond (DeployVault.deployCall F) s1 = (.halt, s2) ∧
      (DeployVault.main sdk ⟨s, []⟩).1 = .halt ∧
      run (DeployVault.script sdk) s =
        [.invoke lookup, .returned F, .invoke (DeployVault.deployCall F)]) ∨
    (∃ F s1 e s2, sdk.respond lookup s = (.value F, s1) ∧
      sdk.respond (DeployVault.deployCall F) s1 = (.throw e, s2) ∧
      (DeployVault.main sdk ⟨s, []⟩).1 = .throw e ∧
      run (DeployVault.script sdk) s =
        [.invoke lookup, .returned F, .invoke (DeployVault.deployCall F), .threw e,
          .error [e], .exit 1]) ∨
    (∃ F s1 V s2 s3, sdk.respond lookup s = (.value F, s1) ∧
      sdk.respond (DeployVault.deployCall F) s1 = (.value V, s2) ∧
      sdk.respond (DeployVault.deployedCall V) s2 = (.halt, s3) ∧
      (DeployVault.main sdk ⟨s, []⟩).1 = .halt ∧
      run (DeployVault.script sdk) s =
        [.invoke lookup, .returned F, .invoke (DeployVault.deployCall F), .returned V,
          .invoke (DeployVault.deployedCall V)]) ∨
    (∃ F s1 V s2 e s3, sdk.respond lookup s = (.value F, s1) ∧
      sdk.respond (DeployVault.deployCall F) s1 = (.value V, s2) ∧
      sdk.respond (DeployVault.deployedCall V) s2 = (.throw e, s3) ∧
      (DeployVault.main sdk ⟨s, []⟩).1 = .throw e ∧
      run (DeployVault.script sdk) s =
        [.invoke lookup, .returned F, .invoke (DeployVault.deployCall F), .returned V,
          .invoke (DeployVault.deployedCall V), .threw e, .error [e], .exit 1]) ∨
    (∃ F s1 V s2 r s3, sdk.respond lookup s = (.value F, s1) ∧
      sdk.respond (DeployVault.deployCall F) s1 = (.value V, s2) ∧
      sdk.respond (DeployVault.deployedCall V) s2 = (.value r, s3) ∧
      (DeployVault.main sdk ⟨s, []⟩).1 = .value () ∧
      run (DeployVault.script sdk) s =
        [.invoke lookup, .returned F, .invoke (DeployVault.deployCall F), .returned V,
          .invoke (DeployVault.deployedCall V), .returned r,
          .log [.str "Vault deployed to:", sdk.address V], .exit 0]) := by
  rcases h1 : sdk.respond lookup s with ⟨F | e | _, s1⟩
  · have g1 := h1
    simp only [lookup] at g1
    rcases h2 : sdk.respond (DeployVault.deployCall F) s1 with ⟨V | e | _, s2⟩
    · have g2 := h2
      simp only [DeployVault.deployCall] at g2
      rcases h3 : sdk.respond (DeployVault.deployedCall V) s2 with ⟨r | e | _, s3⟩
      all_goals
        have g3 := h3
        simp only [DeployVault.deployedCall] at g3
      · refine Or.inr (Or.inr (Or.inr (Or.inr (Or.inr (Or.inr
          ⟨F, s1, V, s2, r, s3, rfl, h2, h3, ?_, ?_⟩))))) <;>
        simp [run, DeployVault.script, DeployVault.main, Script.then_, Script.catch_, Script.bind, bind,
        call, await, consoleLog, consoleError, processExit, g1, g2, g3,
          lookup, DeployVault.deployCall, DeployVault.deployedCall]
      · refine Or.inr (Or.inr (Or.inr (Or.inr (Or.inr (Or.inl
          ⟨F, s1, V, s2, e, s3, rfl, h2, h3, ?_, ?_⟩))))) <;>
        simp [run, DeployVault.script, DeployVault.main, Script.then_, Script.catch_, Script.bind, bind,
        call, await, consoleLog, consoleError, processExit, g1, g2, g3,
          lookup, DeployVault.deployCall, DeployVault.deployedCall]
      · refine Or.inr (Or.inr (Or.inr (Or.inr (Or.inl
          ⟨F, s1, V, s2, s3, rfl, h2, h3, ?_, ?_⟩)))) <;>
        simp [run, DeployVault.script, DeployVault.main, Script.then_, Script.catch_, Script.bind, bind,
        call, await, consoleLog, consoleError, processExit, g1, g2, g3,
          lookup, DeployVault.deployCall, DeployVault.deployedCall]
    · have g2 := h2
      simp only [DeployVault.deployCall] at g2
      refine Or.inr (Or.inr (Or.inr (Or.inl ⟨F, s1, e, s2, rfl, h2, ?_, ?_⟩))) <;>
      simp [run, DeployVault.script, DeployVault.main, Script.then_, Script.catch_, Script.bind, bind,
        call, await, consoleLog, consoleError, processExit, g1, g2, lookup,
        DeployVault.deployCall]
    · have g2 := h2
      simp only [DeployVault.deployCall] at g2
      refine Or.inr (Or.inr (Or.inl ⟨F, s1, s2, rfl, h2, ?_, ?_⟩)) <;>
      simp [run, DeployVault.script, DeployVault.main, Script.then_, Script.catch_, Script.bind, bind,
        call, await, consoleLog, consoleError, processExit, g1, g2, lookup,
        DeployVault.deployCall]
  · have g1 := h1
    simp only [lookup] at g1
    refine Or.inr (Or.inl ⟨e, s1, rfl, ?_, ?_⟩) <;>
    simp [run, DeployVault.script, DeployVault.main, Script.then_, Script.catch_, Script.bind, bind,
        call, await, consoleLog, consoleError, processExit, g1, lookup]
  · have g1 := h1
    simp only [lookup] at g1
    refine Or.inl ⟨s1, rfl, ?_, ?_⟩ <;>
    simp [run, DeployVault.script, DeployVault.main, Script.then_, Script.catch_, Script.bind, bind,
        call, await, consoleLog, consoleError, processExit, g1, lookup]

/-- The seven runs of `3-initialize.js`. -/
theorem initializeVault_run_cases (sdk : Sdk H σ) (s : σ) :
    (∃ s1, sdk.respond lookup s = (.halt, s1) ∧
      (InitializeVault.main sdk ⟨s, []⟩).1 = .halt ∧
      run (InitializeVault.script sdk) s = [.invoke lookup]) ∨
    (∃ e s1, sdk.respond lookup s = (.throw e, s1) ∧
      (InitializeVault.main sdk ⟨s, []⟩).1 = .throw e ∧
      run (InitializeVault.script sdk) s = [.invoke lookup, .threw e, .error [e], .exit 1]) ∨
    (∃ F s1 s2, sdk.respond lookup s = (.value F, s1) ∧
      sdk.respond (InitializeVault.attachCall F) s1 = (.halt, s2) ∧
      (InitializeVault.main sdk ⟨s, []⟩).1 = .halt ∧
      run (InitializeVault.script sdk) s =
        [.invoke lookup, .returned F, .invoke (InitializeVault.attachCall F)]) ∨
    (∃ F s1 e s2, sdk.respond lookup s = (.value F, s1) ∧
      sdk.respond (InitializeVault.attachCall F) s1 = (.throw e, s2) ∧
      (InitializeVault.main sdk ⟨s, []⟩).1 = .throw e ∧
      run (InitializeVault.script sdk) s =
        [.invoke lookup, .returned F, .invoke (InitializeVault.attachCall F), .threw e,
          .error [e], .exit 1]) ∨
    (∃ F s1 V s2 s3, sdk.respond lookup s = (.value F, s1) ∧
      sdk.respond (InitializeVault.attachCall F) s1 = (.value V, s2) ∧
      sdk.respond (InitializeVault.initializeCall V) s2 = (.halt, s3) ∧
      (InitializeVault.main sdk ⟨s, []⟩).1 = .halt ∧
      run (InitializeVault.script sdk) s =
        [.invoke lookup, .returned F, .invoke (InitializeVault.attachCall F), .returned V,
          .invoke (InitializeVault.initializeCall V)]) ∨
    (∃ F s1 V s2 e s3, sdk.respond lookup s = (.value F, s1) ∧
      sdk.respond (InitializeVault.attachCall F) s1 = (.value V, s2) ∧
      sdk.respond (InitializeVault.initializeCall V) s2 = (.throw e, s3) ∧
      (InitializeVault.main sdk ⟨s, []⟩).1 = .throw e ∧
      run (InitializeVault.script sdk) s =
        [.invoke lookup, .returned F, .invoke (InitializeVault.attachCall F), .returned V,
          .invoke (InitializeVault.initializeCall V), .threw e, .error [e], .exit 1]) ∨
    (∃ F s1 V s2 r s3, sdk.respond lookup s = (.value F, s1) ∧
      sdk.respond (InitializeVault.attachCall F) s1 = (.value V, s2) ∧
      sdk.respond (InitializeVault.initializeCall V) s2 = (.value r, s3) ∧
      (InitializeVault.main sdk ⟨s, []⟩).1 = .value () ∧
      run (InitializeVault.script sdk) s =
        [.invoke lookup, .returned F, .invoke (InitializeVault.attachCall F), .returned V,
          .invoke (InitializeVault.initializeCall V), .returned r,
          .log [.str "Vault initialized"], .exit 0]) := by
  rcases h1 : sdk.respond lookup s with ⟨F | e | _, s1⟩
  · have g1 := h1
    simp only [lookup] at g1
    rcases h2 : sdk.respond (InitializeVault.attachCall F) s1 with ⟨V | e | _, s2⟩
    · have g2 := h2
      simp only [InitializeVault.attachCall] at g2
      rcases h3 : sdk.respond (InitializeVault.initializeCall V) s2 with ⟨r | e | _, s3⟩
      all_goals
        have g3 := h3
        simp only [InitializeVault.initializeCall] at g3
      · refine Or.inr (Or.inr (Or.inr (Or.inr (Or.inr (Or.inr
          ⟨F, s1, V, s2, r, s3, rfl, h2, h3, ?_, ?_⟩))))) <;>
        simp [run, InitializeVault.script, InitializeVault.main, Script.then_, Script.catch_, Script.bind, bind,
        call, await, consoleLog, consoleError, processExit, g1, g2, g3,
          lookup, InitializeVault.attachCall, InitializeVault.initializeCall]
      · refine Or.inr (Or.inr (Or.inr (Or.inr (Or.inr (Or.inl
          ⟨F, s1, V, s2, e, s3, rfl, h2, h3, ?_, ?_⟩))))) <;>
        simp [run, InitializeVault.script, InitializeVault.main, Script.then_, Script.catch_, Script.bind, bind,
        call, await, consoleLog, consoleError, processExit, g1, g2, g3,
          lookup, InitializeVault.attachCall, InitializeVault.initializeCall]
      · refine Or.inr (Or.inr (Or.inr (Or.inr (Or.inl
          ⟨F, s1, V, s2, s3, rfl, h2, h3, ?_, ?_⟩)))) <;>
        simp [run, InitializeVault.script, InitializeVault.main, Script.then_, Script.catch_, Script.bind, bind,
        call, await, consoleLog, consoleError, processExit, g1, g2, g3,
          lookup, InitializeVault.attachCall, InitializeVault.initializeCall]
    · have g2 := h2
      simp only [InitializeVault.attachCall] at g2
      refine Or.inr (Or.inr (Or.inr (Or.inl ⟨F, s1, e, s2, rfl, h2, ?_, ?_⟩))) <;>
      simp [run, InitializeVault.script, InitializeVault.main, Script.then_, Script.catch_, Script.bind, bind,
        call, await, consoleLog, consoleError, processExit, g1, g2, lookup,
        InitializeVault.attachCall]
    · have g2 := h2
      simp only [InitializeVault.attachCall] at g2
      refine Or.inr (Or.inr (Or.inl ⟨F, s1, s2, rfl, h2, ?_, ?_⟩)) <;>
      simp [run, InitializeVault.script, InitializeVault.main, Script.then_, Script.catch_, Script.bind, bind,
        call, await, consoleLog, consoleError, processExit, g1, g2, lookup,
        InitializeVault.attachCall]
  · have g1 := h1
    simp only [lookup] at g1
    refine Or.inr (Or.inl ⟨e, s1, rfl, ?_, ?_⟩) <;>
    simp [run, InitializeVault.script, InitializeVault.main, Script.then_, Script.catch_, Script.bind, bind,
        call, await, consoleLog, consoleError, processExit, g1, lookup]
  · have g1 := h1
    simp only [lookup] at g1
    refine Or.inl ⟨s1, rfl, ?_, ?_⟩ <;>
    simp [run, InitializeVault.script, InitializeVault.main, Script.then_, Script.catch_, Script.bind, bind,
        call, await, consoleLog, consoleError, processExit, g1, lookup]

end Runs

/-! ## Exit status -/

section Claims

variable {H σ : Type}

/-- C1, as amended: in both scripts `process.exit(0)` is called exactly when `main`
completes, and then the status is 0 and no step threw; the status is 1 exactly when some
step threw, whatever the thrown value; the status is always 0 or 1 and `process.exit` is
called at most once. A status 0 with `main` not completed occurs only when an awaited call
never settles, and then `process.exit` is not called at all; for an SDK in which every call
settles the status is 0 exactly when `main` completes. -/
theorem process_status_reflects_outcome (sdk : Sdk H σ) (s : σ) :
    (((DeployVault.main sdk ⟨s, []⟩).1 = .value () ↔
        exitCall (run (DeployVault.script sdk) s) = some 0) ∧
      ((DeployVault.main sdk ⟨s, []⟩).1 = .value () →
        processStatus (run (DeployVault.script sdk) s) = 0 ∧
        ∀ e, Event.threw e ∉ run (DeployVault.script sdk) s) ∧
      (processStatus (run (DeployVault.script sdk) s) = 1 ↔
        ∃ e, Event.threw e ∈ run (DeployVault.script sdk) s) ∧
      (processStatus (run (DeployVault.script sdk) s) = 1 ↔
        ∃ e, (DeployVault.main sdk ⟨s, []⟩).1 = .throw e) ∧
      (processStatus (run (DeployVault.script sdk) s) = 0 ∨
        processStatus (run (DeployVault.script sdk) s) = 1) ∧
      (exits (run (DeployVault.script sdk) s) = [] ∨
        exits (run (DeployVault.script sdk) s) = [0] ∨
        exits (run (DeployVault.script sdk) s) = [1]) ∧
      (processStatus (run (DeployVault.script sdk) s) = 0 →
        (DeployVault.main sdk ⟨s, []⟩).1 ≠ .value () →
        (DeployVault.main sdk ⟨s, []⟩).1 = .halt ∧ exits (run (DeployVault.script sdk) s) = []) ∧
      ((∀ c s0, (sdk.respond c s0).1 ≠ .halt) →
        (processStatus (run (DeployVault.script sdk) s) = 0 ↔
          (DeployVault.main sdk ⟨s, []⟩).1 = .value ()))) ∧
    (((InitializeVault.main sdk ⟨s, []⟩).1 = .value () ↔
        exitCall (run (InitializeVault.script sdk) s) = some 0) ∧
      ((InitializeVault.main sdk ⟨s, []⟩).1 = .value () →
        processStatus (run (InitializeVault.script sdk) s) = 0 ∧
        ∀ e, Event.threw e ∉ run (InitializeVault.script sdk) s) ∧
      (processStatus (run (InitializeVault.script sdk) s) = 1 ↔
        ∃ e, Event.threw e ∈ run (InitializeVault.script sdk) s) ∧
      (processStatus (run (InitializeVault.script sdk) s) = 1 ↔
        ∃ e, (InitializeVault.main sdk ⟨s, []⟩).1 = .throw e) ∧
      (processStatus (run (InitializeVault.script sdk) s) = 0 ∨
        processStatus (run (InitializeVault.script sdk) s) = 1) ∧
      (exits (run (InitializeVault.script sdk) s) = [] ∨
        exits (run (InitializeVault.script sdk) s) = [0] ∨
        exits (run (InitializeVault.script sdk) s) = [1]) ∧
      (processStatus (run (InitializeVault.script sdk) s) = 0 →
        (InitializeVault.main sdk ⟨s, []⟩).1 ≠ .value () →
        (InitializeVault.main sdk ⟨s, []⟩).1 = .halt ∧ exits (run (InitializeVault.script sdk) s) = []) ∧
      ((∀ c s0, (sdk.respond c s0).1 ≠ .halt) →
        (processStatus (run (InitializeVault.script sdk) s) = 0 ↔
          (InitializeVault.main sdk ⟨s, []⟩).1 = .value ()))) := by
  constructor
  · rcases deployVault_run_cases sdk s with
      ⟨s1, g1, hm, ht⟩ | ⟨e1, s1, g1, hm, ht⟩ | ⟨F1, s1, s2, g1, g2, hm, ht⟩ |
      ⟨F1, s1, e1, s2, g1, g2, hm, ht⟩ | ⟨F1, s1, V1, s2, s3, g1, g2, g3, hm, ht⟩ |
      ⟨F1, s1, V1, s2, e1, s3, g1, g2, g3, hm, ht⟩ |
      ⟨F1, s1, V1, s2, r1, s3, g1, g2, g3, hm, ht⟩
    all_goals refine ⟨?_, ?_, ?_, ?_, ?_, ?_, ?_, ?_⟩
    all_goals try simp [ht, hm, exitCall, processStatus, exits]
    · exact ⟨_, _, congrArg Prod.fst g1⟩
    · exact ⟨_, _, congrArg Prod.fst g2⟩
    · exact ⟨_, _, congrArg Prod.fst g3⟩
  · rcases initializeVault_run_cases sdk s with
      ⟨s1, g1, hm, ht⟩ | ⟨e1, s1, g1, hm, ht⟩ | ⟨F1, s1, s2, g1, g2, hm, ht⟩ |
      ⟨F1, s1, e1, s2, g1, g2, hm, ht⟩ | ⟨F1, s1, V1, s2, s3, g1, g2, g3, hm, ht⟩ |
      ⟨F1, s1, V1, s2, e1, s3, g1, g2, g3, hm, ht⟩ |
      ⟨F1, s1, V1, s2, r1, s3, g1, g2, g3, hm, ht⟩
    all_goals refine ⟨?_, ?_, ?_, ?_, ?_, ?_, ?_, ?_⟩
    all_goals try simp [ht, hm, exitCall, processStatus, exits]
    · exact ⟨_, _, congrArg Prod.fst g1⟩
    · exact ⟨_, _, congrArg Prod.fst g2⟩
    · exact ⟨_, _, congrArg Prod.fst g3⟩

/-! ## Arguments of the calls -/

/-- C2: in `1-vault.js`, when the factory lookup returns a factory `F`, `deploy` is called
on `F` with the asset address, the name, the symbol, fee 0 and cap `2 ^ 256 - 1`, in this
order, and every `deploy` call of the run is this one. The five arguments are the same for
every SDK and every state. -/
theorem deploy_called_with_fixed_arguments (sdk : Sdk H σ) (s s1 : σ) (F : Val H)
    (h : sdk.respond (.getContractFactory "ReaperVaultv1_4") s = (.value F, s1)) :
    Event.invoke (.method F "deploy" [.str "0x1b371a952A3246dAc40530D400d86b5d36655ad1",
        .str "CUSD-AGEUR Creditum Crypt", .str "rf-CUSD-AGEUR", .num 0,
        .num (2 ^ 256 - 1)]) ∈ run (DeployVault.script sdk) s ∧
    ∀ recv args, Event.invoke (.method recv "deploy" args) ∈ run (DeployVault.script sdk) s →
      recv = F ∧ args = [.str "0x1b371a952A3246dAc40530D400d86b5d36655ad1",
        .str "CUSD-AGEUR Creditum Crypt", .str "rf-CUSD-AGEUR", .num 0, .num (2 ^ 256 - 1)] := by
  rcases deployVault_run_cases sdk s with
      ⟨s1, g1, hm, ht⟩ | ⟨e1, s1, g1, hm, ht⟩ | ⟨F1, s1, s2, g1, g2, hm, ht⟩ |
      ⟨F1, s1, e1, s2, g1, g2, hm, ht⟩ | ⟨F1, s1, V1, s2, s3, g1, g2, g3, hm, ht⟩ |
      ⟨F1, s1, V1, s2, e1, s3, g1, g2, g3, hm, ht⟩ |
      ⟨F1, s1, V1, s2, r1, s3, g1, g2, g3, hm, ht⟩ <;>
    simp only [lookup] at g1 <;>
    rw [h] at g1 <;>
    simp at g1 <;>
    obtain ⟨rfl, rfl⟩ := g1 <;>
    simp [ht, lookup, DeployVault.deployCall, DeployVault.deployedCall, MaxUint256]

/-- C3, as amended: in `3-initialize.js`, when the factory lookup returns a factory `F` and
`attach` on `F` returns a handle `V`, `initialize` is called on `V` with the strategy address
as its only argument; every `initialize` call of the run is this one, and every `attach`
call is the one on `F` with the vault address as its only argument. -/
theorem initialize_called_on_attached_vault (sdk : Sdk H σ) (s s1 s2 : σ) (F V : Val H)
    (h1 : sdk.respond (.getContractFactory "ReaperVaultv1_4") s = (.value F, s1))
    (h2 : sdk.respond (.method F "attach" [.str "0x63AFF1c026b79f28990A8E81eEB8b5D4c306DB1B"])
      s1 = (.value V, s2)) :
    Event.invoke (.method V "initialize" [.str "0xd7c7Be67819247eBB8fc8Ec8922b2d101d8514D6"]) ∈
      run (InitializeVault.script sdk) s ∧
    (∀ recv args,
      Event.invoke (.method recv "initialize" args) ∈ run (InitializeVault.script sdk) s →
      recv = V ∧ args = [.str "0xd7c7Be67819247eBB8fc8Ec8922b2d101d8514D6"]) ∧
    (∀ recv args,
      Event.invoke (.method recv "attach" args) ∈ run (InitializeVault.script sdk) s →
      recv = F ∧ args = [.str "0x63AFF1c026b79f28990A8E81eEB8b5D4c306DB1B"]) := by
  rcases initializeVault_run_cases sdk s with
      ⟨s1, g1, hm, ht⟩ | ⟨e1, s1, g1, hm, ht⟩ | ⟨F1, s1, s2, g1, g2, hm, ht⟩ |
      ⟨F1, s1, e1, s2, g1, g2, hm, ht⟩ | ⟨F1, s1, V1, s2, s3, g1, g2, g3, hm, ht⟩ |
      ⟨F1, s1, V1, s2, e1, s3, g1, g2, g3, hm, ht⟩ |
      ⟨F1, s1, V1, s2, r1, s3, g1, g2, g3, hm, ht⟩ <;>
    simp only [lookup] at g1 <;>
    rw [h1] at g1 <;>
    simp at g1 <;>
    obtain ⟨rfl, rfl⟩ := g1 <;>
    simp only [InitializeVault.attachCall] at g2 <;>
    rw [h2] at g2 <;>
    simp at g2 <;>
    obtain ⟨rfl, rfl⟩ := g2 <;>
    simp [ht, lookup, InitializeVault.attachCall, InitializeVault.initializeCall]

/-! ## Output -/

/-- C5: a successful run of `1-vault.js`, one that reaches `process.exit(0)`, wrote exactly
one line to standard output, `Vault deployed to:` followed by the `address` of the object
`V` that the `deploy` call returned, and nothing to the error stream; a successful run of
`3-initialize.js` wrote exactly the line `Vault initialized` and nothing to the error
stream. -/
theorem success_writes_one_log_line (sdk : Sdk H σ) (s : σ) :
    (exitCall (run (DeployVault.script sdk) s) = some 0 →
      ∃ F s1 V s2, sdk.respond (.getContractFactory "ReaperVaultv1_4") s = (.value F, s1) ∧
        sdk.respond (DeployVault.deployCall F) s1 = (.value V, s2) ∧
        stdout (run (DeployVault.script sdk) s) = [[.str "Vault deployed to:", sdk.address V]] ∧
        stderr (run (DeployVault.script sdk) s) = []) ∧
    (exitCall (run (InitializeVault.script sdk) s) = some 0 →
      stdout (run (InitializeVault.script sdk) s) = [[.str "Vault initialized"]] ∧
      stderr (run (InitializeVault.script sdk) s) = []) := by
  constructor
  · rcases deployVault_run_cases sdk s with
      ⟨s1, g1, hm, ht⟩ | ⟨e1, s1, g1, hm, ht⟩ | ⟨F1, s1, s2, g1, g2, hm, ht⟩ |
      ⟨F1, s1, e1, s2, g1, g2, hm, ht⟩ | ⟨F1, s1, V1, s2, s3, g1, g2, g3, hm, ht⟩ |
      ⟨F1, s1, V1, s2, e1, s3, g1, g2, g3, hm, ht⟩ |
      ⟨F1, s1, V1, s2, r1, s3, g1, g2, g3, hm, ht⟩
    on_goal 7 =>
      exact fun _ => ⟨F1, s1, V1, s2, by simpa [lookup] using g1, g2, by simp [ht, stdout],
        by simp [ht, stderr]⟩
    all_goals simp [ht, exitCall, exits]
  · rcases initializeVault_run_cases sdk s with
      ⟨s1, g1, hm, ht⟩ | ⟨e1, s1, g1, hm, ht⟩ | ⟨F1, s1, s2, g1, g2, hm, ht⟩ |
      ⟨F1, s1, e1, s2, g1, g2, hm, ht⟩ | ⟨F1, s1, V1, s2, s3, g1, g2, g3, hm, ht⟩ |
      ⟨F1, s1, V1, s2, e1, s3, g1, g2, g3, hm, ht⟩ |
      ⟨F1, s1, V1, s2, r1, s3, g1, g2, g3, hm, ht⟩ <;>
    simp [ht, exitCall, exits, stdout, stderr]

/-- C6: in both scripts, when a step throws the value `e` (whichever step, whatever value),
the error stream receives exactly one line, `e` itself, `process.exit` is called once, with
1, and the run ends with the throw, then `console.error(e)`, then `process.exit(1)`. A run
that calls `process.exit(1)` is such a run. -/
theorem thrown_error_reported_once (sdk : Sdk H σ) (s : σ) (e : Val H) :
    ((Event.threw e ∈ run (DeployVault.script sdk) s →
        stderr (run (DeployVault.script sdk) s) = [[e]] ∧
        exits (run (DeployVault.script sdk) s) = [1] ∧
        [.threw e, .error [e], .exit 1] <:+ run (DeployVault.script sdk) s) ∧
      (exitCall (run (DeployVault.script sdk) s) = some 1 →
        ∃ x, Event.threw x ∈ run (DeployVault.script sdk) s)) ∧
    ((Event.threw e ∈ run (InitializeVault.script sdk) s →
        stderr (run (InitializeVault.script sdk) s) = [[e]] ∧
        exits (run (InitializeVault.script sdk) s) = [1] ∧
        [.threw e, .error [e], .exit 1] <:+ run (InitializeVault.script sdk) s) ∧
      (exitCall (run (InitializeVault.script sdk) s) = some 1 →
        ∃ x, Event.threw x ∈ run (InitializeVault.script sdk) s)) := by
  constructor
  · rcases deployVault_run_cases sdk s with
      ⟨s1, g1, hm, ht⟩ | ⟨e1, s1, g1, hm, ht⟩ | ⟨F1, s1, s2, g1, g2, hm, ht⟩ |
      ⟨F1, s1, e1, s2, g1, g2, hm, ht⟩ | ⟨F1, s1, V1, s2, s3, g1, g2, g3, hm, ht⟩ |
      ⟨F1, s1, V1, s2, e1, s3, g1, g2, g3, hm, ht⟩ |
      ⟨F1, s1, V1, s2, r1, s3, g1, g2, g3, hm, ht⟩ <;>
    simp +contextual [ht, exitCall, exits, stderr, List.suffix_cons_iff]
  · rcases initializeVault_run_cases sdk s with
      ⟨s1, g1, hm, ht⟩ | ⟨e1, s1, g1, hm, ht⟩ | ⟨F1, s1, s2, g1, g2, hm, ht⟩ |
      ⟨F1, s1, e1, s2, g1, g2, hm, ht⟩ | ⟨F1, s1, V1, s2, s3, g1, g2, g3, hm, ht⟩ |
      ⟨F1, s1, V1, s2, e1, s3, g1, g2, g3, hm, ht⟩ |
      ⟨F1, s1, V1, s2, r1, s3, g1, g2, g3, hm, ht⟩ <;>
    simp +contextual [ht, exitCall, exits, stderr, List.suffix_cons_iff]

/-! ## Order of the steps -/

/-- C8: no retry. In every run of either script `ethers.getContractFactory` is called at
most once; `deploy` is called at most once in `1-vault.js` and `initialize` at most once in
`3-initialize.js`. -/
theorem no_retry (sdk : Sdk H σ) (s : σ) :
    ((calls (run (DeployVault.script sdk) s)).countP Call.isFactoryLookup ≤ 1 ∧
      (calls (run (DeployVault.script sdk) s)).countP (Call.isMethod "deploy") ≤ 1) ∧
    ((calls (run (InitializeVault.script sdk) s)).countP Call.isFactoryLookup ≤ 1 ∧
      (calls (run (InitializeVault.script sdk) s)).countP (Call.isMethod "initialize") ≤ 1) := by
  constructor
  · rcases deployVault_run_cases sdk s with
      ⟨s1, g1, hm, ht⟩ | ⟨e1, s1, g1, hm, ht⟩ | ⟨F1, s1, s2, g1, g2, hm, ht⟩ |
      ⟨F1, s1, e1, s2, g1, g2, hm, ht⟩ | ⟨F1, s1, V1, s2, s3, g1, g2, g3, hm, ht⟩ |
      ⟨F1, s1, V1, s2, e1, s3, g1, g2, g3, hm, ht⟩ |
      ⟨F1, s1, V1, s2, r1, s3, g1, g2, g3, hm, ht⟩ <;>
    simp [ht, calls, lookup, DeployVault.deployCall, DeployVault.deployedCall,
      Call.isFactoryLookup, Call.isMethod, List.countP_cons]
  · rcases initializeVault_run_cases sdk s with
      ⟨s1, g1, hm, ht⟩ | ⟨e1, s1, g1, hm, ht⟩ | ⟨F1, s1, s2, g1, g2, hm, ht⟩ |
      ⟨F1, s1, e1, s2, g1, g2, hm, ht⟩ | ⟨F1, s1, V1, s2, s3, g1, g2, g3, hm, ht⟩ |
      ⟨F1, s1, V1, s2, e1, s3, g1, g2, g3, hm, ht⟩ |
      ⟨F1, s1, V1, s2, r1, s3, g1, g2, g3, hm, ht⟩ <;>
    simp [ht, calls, lookup, InitializeVault.attachCall, InitializeVault.initializeCall,
      Call.isFactoryLookup, Call.isMethod, List.countP_cons]

/-- C7: in `1-vault.js` the steps come in the order factory lookup, `deploy`,
`vault.deployed()`, success log, exit. A run that logs or calls `process.exit(0)` is exactly
the run in which the lookup returned `F`, `deploy` on `F` returned `V`, `deployed` on `V`
returned, and only then the line was logged and `process.exit(0)` called. In every run each
call after the first directly follows the return of the call before it, and the calls made
are an initial part of lookup, `deploy`, `deployed`. -/
theorem deploy_steps_in_order (sdk : Sdk H σ) (s : σ) :
    ((Event.exit 0 ∈ run (DeployVault.script sdk) s ∨
        ∃ args, Event.log args ∈ run (DeployVault.script sdk) s) →
      ∃ F s1 V s2 r s3, sdk.respond lookup s = (.value F, s1) ∧
        sdk.respond (DeployVault.deployCall F) s1 = (.value V, s2) ∧
        sdk.respond (DeployVault.deployedCall V) s2 = (.value r, s3) ∧
        run (DeployVault.script sdk) s =
          [.invoke lookup, .returned F, .invoke (DeployVault.deployCall F), .returned V,
            .invoke (DeployVault.deployedCall V), .returned r,
            .log [.str "Vault deployed to:", sdk.address V], .exit 0]) ∧
    (∀ i c, (run (DeployVault.script sdk) s)[i + 1]? = some (.invoke c) →
      ∃ v, (run (DeployVault.script sdk) s)[i]? = some (.returned v)) ∧
    (calls (run (DeployVault.script sdk) s) = [lookup] ∨
      (∃ F, calls (run (DeployVault.script sdk) s) = [lookup, DeployVault.deployCall F]) ∨
      ∃ F V, calls (run (DeployVault.script sdk) s) =
        [lookup, DeployVault.deployCall F, DeployVault.deployedCall V]) := by
  refine ⟨?_, ?_, ?_⟩
  · rcases deployVault_run_cases sdk s with
      ⟨s1, g1, hm, ht⟩ | ⟨e1, s1, g1, hm, ht⟩ | ⟨F1, s1, s2, g1, g2, hm, ht⟩ |
      ⟨F1, s1, e1, s2, g1, g2, hm, ht⟩ | ⟨F1, s1, V1, s2, s3, g1, g2, g3, hm, ht⟩ |
      ⟨F1, s1, V1, s2, e1, s3, g1, g2, g3, hm, ht⟩ |
      ⟨F1, s1, V1, s2, r1, s3, g1, g2, g3, hm, ht⟩
    on_goal 7 => exact fun _ => ⟨F1, s1, V1, s2, r1, s3, g1, g2, g3, ht⟩
    all_goals simp [ht]
  · intro i c
    rcases deployVault_run_cases sdk s with
      ⟨s1, g1, hm, ht⟩ | ⟨e1, s1, g1, hm, ht⟩ | ⟨F1, s1, s2, g1, g2, hm, ht⟩ |
      ⟨F1, s1, e1, s2, g1, g2, hm, ht⟩ | ⟨F1, s1, V1, s2, s3, g1, g2, g3, hm, ht⟩ |
      ⟨F1, s1, V1, s2, e1, s3, g1, g2, g3, hm, ht⟩ |
      ⟨F1, s1, V1, s2, r1, s3, g1, g2, g3, hm, ht⟩ <;>
    rw [ht] <;>
    rcases i with _ | _ | _ | _ | _ | _ | _ | i <;>
    simp
  · rcases deployVault_run_cases sdk s with
      ⟨s1, g1, hm, ht⟩ | ⟨e1, s1, g1, hm, ht⟩ | ⟨F1, s1, s2, g1, g2, hm, ht⟩ |
      ⟨F1, s1, e1, s2, g1, g2, hm, ht⟩ | ⟨F1, s1, V1, s2, s3, g1, g2, g3, hm, ht⟩ |
      ⟨F1, s1, V1, s2, e1, s3, g1, g2, g3, hm, ht⟩ |
      ⟨F1, s1, V1, s2, r1, s3, g1, g2, g3, hm, ht⟩ <;>
    simp [ht, calls]

/-- C9: a failure stops the script at the failing step. In both scripts a run in which a
step throws logs nothing and ends with the throw, the error line and `process.exit(1)`, so
no later step runs: when the factory lookup throws it is the only call made, when `deploy`
(or `attach`) throws no call follows it, and when `deployed` (or the initialization call)
throws it is the last call. -/
theorem failure_stops_script (sdk : Sdk H σ) (s : σ) :
    ((∀ e, Event.threw e ∈ run (DeployVault.script sdk) s →
        stdout (run (DeployVault.script sdk) s) = [] ∧
        [.threw e, .error [e], .exit 1] <:+ run (DeployVault.script sdk) s) ∧
      (exitCall (run (DeployVault.script sdk) s) = some 1 →
        stdout (run (DeployVault.script sdk) s) = []) ∧
      (∀ e s1, sdk.respond lookup s = (.throw e, s1) →
        calls (run (DeployVault.script sdk) s) = [lookup]) ∧
      (∀ F s1 e s2, sdk.respond lookup s = (.value F, s1) →
        sdk.respond (DeployVault.deployCall F) s1 = (.throw e, s2) →
        calls (run (DeployVault.script sdk) s) = [lookup, DeployVault.deployCall F]) ∧
      (∀ F s1 V s2 e s3, sdk.respond lookup s = (.value F, s1) →
        sdk.respond (DeployVault.deployCall F) s1 = (.value V, s2) →
        sdk.respond (DeployVault.deployedCall V) s2 = (.throw e, s3) →
        calls (run (DeployVault.script sdk) s) =
          [lookup, DeployVault.deployCall F, DeployVault.deployedCall V])) ∧
    ((∀ e, Event.threw e ∈ run (InitializeVault.script sdk) s →
        stdout (run (InitializeVault.script sdk) s) = [] ∧
        [.threw e, .error [e], .exit 1] <:+ run (InitializeVault.script sdk) s) ∧
      (exitCall (run (InitializeVault.script sdk) s) = some 1 →
        stdout (run (InitializeVault.script sdk) s) = []) ∧
      (∀ e s1, sdk.respond lookup s = (.throw e, s1) →
        calls (run (InitializeVault.script sdk) s) = [lookup]) ∧
      (∀ F s1 e s2, sdk.respond lookup s = (.value F, s1) →
        sdk.respond (InitializeVault.attachCall F) s1 = (.throw e, s2) →
        calls (run (InitializeVault.script sdk) s) = [lookup, InitializeVault.attachCall F]) ∧
      (∀ F s1 V s2 e s3, sdk.respond lookup s = (.value F, s1) →
        sdk.respond (InitializeVault.attachCall F) s1 = (.value V, s2) →
        sdk.respond (InitializeVault.initializeCall V) s2 = (.throw e, s3) →
        calls (run (InitializeVault.script sdk) s) =
          [lookup, InitializeVault.attachCall F, InitializeVault.initializeCall V])) := by
  constructor
  · refine ⟨?_, ?_, ?_, ?_, ?_⟩
    · rcases deployVault_run_cases sdk s with
        ⟨s1, g1, hm, ht⟩ | ⟨e1, s1, g1, hm, ht⟩ | ⟨F1, s1, s2, g1, g2, hm, ht⟩ |
        ⟨F1, s1, e1, s2, g1, g2, hm, ht⟩ | ⟨F1, s1, V1, s2, s3, g1, g2, g3, hm, ht⟩ |
        ⟨F1, s1, V1, s2, e1, s3, g1, g2, g3, hm, ht⟩ |
        ⟨F1, s1, V1, s2, r1, s3, g1, g2, g3, hm, ht⟩ <;>
      simp +contextual [ht, stdout, List.suffix_cons_iff]
    · rcases deployVault_run_cases sdk s with
        ⟨s1, g1, hm, ht⟩ | ⟨e1, s1, g1, hm, ht⟩ | ⟨F1, s1, s2, g1, g2, hm, ht⟩ |
        ⟨F1, s1, e1, s2, g1, g2, hm, ht⟩ | ⟨F1, s1, V1, s2, s3, g1, g2, g3, hm, ht⟩ |
        ⟨F1, s1, V1, s2, e1, s3, g1, g2, g3, hm, ht⟩ |
        ⟨F1, s1, V1, s2, r1, s3, g1, g2, g3, hm, ht⟩ <;>
      simp [ht, exitCall, exits, stdout]
    · intro e0 t1 h1
      rcases deployVault_run_cases sdk s with
        ⟨s1, g1, hm, ht⟩ | ⟨e1, s1, g1, hm, ht⟩ | ⟨F1, s1, s2, g1, g2, hm, ht⟩ |
        ⟨F1, s1, e1, s2, g1, g2, hm, ht⟩ | ⟨F1, s1, V1, s2, s3, g1, g2, g3, hm, ht⟩ |
        ⟨F1, s1, V1, s2, e1, s3, g1, g2, g3, hm, ht⟩ |
        ⟨F1, s1, V1, s2, r1, s3, g1, g2, g3, hm, ht⟩ <;>
      rw [h1] at g1 <;>
      simp at g1 <;>
      simp [ht, calls]
    · intro F0 t1 e0 t2 h1 h2
      rcases deployVault_run_cases sdk s with
        ⟨s1, g1, hm, ht⟩ | ⟨e1, s1, g1, hm, ht⟩ | ⟨F1, s1, s2, g1, g2, hm, ht⟩ |
        ⟨F1, s1, e1, s2, g1, g2, hm, ht⟩ | ⟨F1, s1, V1, s2, s3, g1, g2, g3, hm, ht⟩ |
        ⟨F1, s1, V1, s2, e1, s3, g1, g2, g3, hm, ht⟩ |
        ⟨F1, s1, V1, s2, r1, s3, g1, g2, g3, hm, ht⟩ <;>
      rw [h1] at g1 <;>
      simp at g1 <;>
      obtain ⟨rfl, rfl⟩ := g1 <;>
      rw [h2] at g2 <;>
      simp at g2 <;>
      simp [ht, calls]
    · intro F0 t1 V0 t2 e0 t3 h1 h2 h3
      rcases deployVault_run_cases sdk s with
        ⟨s1, g1, hm, ht⟩ | ⟨e1, s1, g1, hm, ht⟩ | ⟨F1, s1, s2, g1, g2, hm, ht⟩ |
        ⟨F1, s1, e1, s2, g1, g2, hm, ht⟩ | ⟨F1, s1, V1, s2, s3, g1, g2, g3, hm, ht⟩ |
        ⟨F1, s1, V1, s2, e1, s3, g1, g2, g3, hm, ht⟩ |
        ⟨F1, s1, V1, s2, r1, s3, g1, g2, g3, hm, ht⟩ <;>
      rw [h1] at g1 <;>
      simp at g1 <;>
      obtain ⟨rfl, rfl⟩ := g1 <;>
      rw [h2] at g2 <;>
      simp at g2 <;>
      obtain ⟨rfl, rfl⟩ := g2 <;>
      rw [h3] at g3 <;>
      simp at g3 <;>
      simp [ht, calls]
  · refine ⟨?_, ?_, ?_, ?_, ?_⟩
    · rcases initializeVault_run_cases sdk s with
        ⟨s1, g1, hm, ht⟩ | ⟨e1, s1, g1, hm, ht⟩ | ⟨F1, s1, s2, g1, g2, hm, ht⟩ |
        ⟨F1, s1, e1, s2, g1, g2, hm, ht⟩ | ⟨F1, s1, V1, s2, s3, g1, g2, g3, hm, ht⟩ |
        ⟨F1, s1, V1, s2, e1, s3, g1, g2, g3, hm, ht⟩ |
        ⟨F1, s1, V1, s2, r1, s3, g1, g2, g3, hm, ht⟩ <;>
      simp +contextual [ht, stdout, List.suffix_cons_iff]
    · rcases initializeVault_run_cases sdk s with
        ⟨s1, g1, hm, ht⟩ | ⟨e1, s1, g1, hm, ht⟩ | ⟨F1, s1, s2, g1, g2, hm, ht⟩ |
        ⟨F1, s1, e1, s2, g1, g2, hm, ht⟩ | ⟨F1, s1, V1, s2, s3, g1, g2, g3, hm, ht⟩ |
        ⟨F1, s1, V1, s2, e1, s3, g1, g2, g3, hm, ht⟩ |
        ⟨F1, s1, V1, s2, r1, s3, g1, g2, g3, hm, ht⟩ <;>
      simp [ht, exitCall, exits, stdout]
    · intro e0 t1 h1
      rcases initializeVault_run_cases sdk s with
        ⟨s1, g1, hm, ht⟩ | ⟨e1, s1, g1, hm, ht⟩ | ⟨F1, s1, s2, g1, g2, hm, ht⟩ |
        ⟨F1, s1, e1, s2, g1, g2, hm, ht⟩ | ⟨F1, s1, V1, s2, s3, g1, g2, g3, hm, ht⟩ |
        ⟨F1, s1, V1, s2, e1, s3, g1, g2, g3, hm, ht⟩ |
        ⟨F1, s1, V1, s2, r1, s3, g1, g2, g3, hm, ht⟩ <;>
      rw [h1] at g1 <;>
      simp at g1 <;>
      simp [ht, calls]
    · intro F0 t1 e0 t2 h1 h2
      rcases initializeVault_run_cases sdk s with
        ⟨s1, g1, hm, ht⟩ | ⟨e1, s1, g1, hm, ht⟩ | ⟨F1, s1, s2, g1, g2, hm, ht⟩ |
        ⟨F1, s1, e1, s2, g1, g2, hm, ht⟩ | ⟨F1, s1, V1, s2, s3, g1, g2, g3, hm, ht⟩ |
        ⟨F1, s1, V1, s2, e1, s3, g1, g2, g3, hm, ht⟩ |
        ⟨F1, s1, V1, s2, r1, s3, g1, g2, g3, hm, ht⟩ <;>
      rw [h1] at g1 <;>
      simp at g1 <;>
      obtain ⟨rfl, rfl⟩ := g1 <;>
      rw [h2] at g2 <;>
      simp at g2 <;>
      simp [ht, calls]
    · intro F0 t1 V0 t2 e0 t3 h1 h2 h3
      rcases initializeVault_run_cases sdk s with
        ⟨s1, g1, hm, ht⟩ | ⟨e1, s1, g1, hm, ht⟩ | ⟨F1, s1, s2, g1, g2, hm, ht⟩ |
        ⟨F1, s1, e1, s2, g1, g2, hm, ht⟩ | ⟨F1, s1, V1, s2, s3, g1, g2, g3, hm, ht⟩ |
        ⟨F1, s1, V1, s2, e1, s3, g1, g2, g3, hm, ht⟩ |
        ⟨F1, s1, V1, s2, r1, s3, g1, g2, g3, hm, ht⟩ <;>
      rw [h1] at g1 <;>
      simp at g1 <;>
      obtain ⟨rfl, rfl⟩ := g1 <;>
      rw [h2] at g2 <;>
      simp at g2 <;>
      obtain ⟨rfl, rfl⟩ := g2 <;>
      rw [h3] at g3 <;>
      simp at g3 <;>
      simp [ht, calls]

/-- C10: both scripts ask `ethers.getContractFactory` for the name `ReaperVaultv1_4`, as
their first step and under no other name; the factory `1-vault.js` deploys from and the
factory `3-initialize.js` attaches the vault address to are the answers to that lookup. -/
theorem same_factory_name (sdk : Sdk H σ) (s s' : σ) :
    (run (DeployVault.script sdk) s).head? =
      some (.invoke (.getContractFactory "ReaperVaultv1_4")) ∧
    (run (InitializeVault.script sdk) s').head? =
      some (.invoke (.getContractFactory "ReaperVaultv1_4")) ∧
    (∀ name, Event.invoke (.getContractFactory name) ∈ run (DeployVault.script sdk) s →
      name = "ReaperVaultv1_4") ∧
    (∀ name, Event.invoke (.getContractFactory name) ∈ run (InitializeVault.script sdk) s' →
      name = "ReaperVaultv1_4") ∧
    (∀ recv args, Event.invoke (.method recv "deploy" args) ∈ run (DeployVault.script sdk) s →
      (sdk.respond (.getContractFactory "ReaperVaultv1_4") s).1 = .value recv) ∧
    (∀ recv args,
      Event.invoke (.method recv "attach" args) ∈ run (InitializeVault.script sdk) s' →
      (sdk.respond (.getContractFactory "ReaperVaultv1_4") s').1 = .value recv) := by
  have hd : (run (DeployVault.script sdk) s).head? =
        some (.invoke (.getContractFactory "ReaperVaultv1_4")) ∧
      (∀ name, Event.invoke (.getContractFactory name) ∈ run (DeployVault.script sdk) s →
        name = "ReaperVaultv1_4") ∧
      (∀ recv args,
        Event.invoke (.method recv "deploy" args) ∈ run (DeployVault.script sdk) s →
        (sdk.respond (.getContractFactory "ReaperVaultv1_4") s).1 = .value recv) := by
    rcases deployVault_run_cases sdk s with
      ⟨s1, g1, hm, ht⟩ | ⟨e1, s1, g1, hm, ht⟩ | ⟨F1, s1, s2, g1, g2, hm, ht⟩ |
      ⟨F1, s1, e1, s2, g1, g2, hm, ht⟩ | ⟨F1, s1, V1, s2, s3, g1, g2, g3, hm, ht⟩ |
      ⟨F1, s1, V1, s2, e1, s3, g1, g2, g3, hm, ht⟩ |
      ⟨F1, s1, V1, s2, r1, s3, g1, g2, g3, hm, ht⟩ <;>
    simp only [lookup] at g1 <;>
    simp +contextual [ht, g1, lookup, DeployVault.deployCall, DeployVault.deployedCall]
  have hi : (run (InitializeVault.script sdk) s').head? =
        some (.invoke (.getContractFactory "ReaperVaultv1_4")) ∧
      (∀ name, Event.invoke (.getContractFactory name) ∈ run (InitializeVault.script sdk) s' →
        name = "ReaperVaultv1_4") ∧
      (∀ recv args,
        Event.invoke (.method recv "attach" args) ∈ run (InitializeVault.script sdk) s' →
        (sdk.respond (.getContractFactory "ReaperVaultv1_4") s').1 = .value recv) := by
    rcases initializeVault_run_cases sdk s' with
      ⟨s1, g1, hm, ht⟩ | ⟨e1, s1, g1, hm, ht⟩ | ⟨F1, s1, s2, g1, g2, hm, ht⟩ |
      ⟨F1, s1, e1, s2, g1, g2, hm, ht⟩ | ⟨F1, s1, V1, s2, s3, g1, g2, g3, hm, ht⟩ |
      ⟨F1, s1, V1, s2, e1, s3, g1, g2, g3, hm, ht⟩ |
      ⟨F1, s1, V1, s2, r1, s3, g1, g2, g3, hm, ht⟩ <;>
    simp only [lookup] at g1 <;>
    simp +contextual [ht, g1, lookup, InitializeVault.attachCall,
      InitializeVault.initializeCall]
  exact ⟨hd.1, hi.1, hd.2.1, hi.2.1, hd.2.2, hi.2.2⟩

end Claims

/-! ## Concrete runs -/

/-- C1 as stated fails: the factory lookup of `1-vault.js` never settles. The script makes
the one call and nothing more, `main` does not complete and no step throws, `process.exit`
is not called, and the process ends with status 0. The same holds of `3-initialize.js`. -/
theorem status_zero_with_main_incomplete :
    (replay.respond (.getContractFactory "ReaperVaultv1_4") [] = (.halt, []) ∧
      run (DeployVault.script replay) [] = [.invoke (.getContractFactory "ReaperVaultv1_4")] ∧
      (DeployVault.main replay ⟨[], []⟩).1 = .halt ∧
      exitCall (run (DeployVault.script replay) []) = none ∧
      processStatus (run (DeployVault.script replay) []) = 0) ∧
    (run (InitializeVault.script replay) [] =
        [.invoke (.getContractFactory "ReaperVaultv1_4")] ∧
      (InitializeVault.main replay ⟨[], []⟩).1 = .halt ∧
      exitCall (run (InitializeVault.script replay) []) = none ∧
      processStatus (run (InitializeVault.script replay) []) = 0) := by
  refine ⟨⟨rfl, ?_, ?_, ?_, ?_⟩, ?_, ?_, ?_, ?_⟩ <;> decide

/-- C1, as amended, at concrete SDKs: with every call settling both scripts complete and
end with status 0; when `deploy` throws the status is 1. -/
theorem process_status_reflects_outcome_witness :
    (processStatus (run (DeployVault.script fulfil) ()) = 0 ↔
      (DeployVault.main fulfil ⟨(), []⟩).1 = .value ()) ∧
    (processStatus (run (InitializeVault.script fulfil) ()) = 0 ↔
      (InitializeVault.main fulfil ⟨(), []⟩).1 = .value ()) ∧
    processStatus (run (DeployVault.script replay) [.value (.obj 1), .throw (.str "boom")]) =
      1 :=
  ⟨(process_status_reflects_outcome fulfil ()).1.2.2.2.2.2.2.2 (by intro c s0; simp [fulfil]),
    (process_status_reflects_outcome fulfil ()).2.2.2.2.2.2.2.2 (by intro c s0; simp [fulfil]),
    (process_status_reflects_outcome replay
      [.value (.obj 1), .throw (.str "boom")]).1.2.2.1.mpr ⟨.str "boom", by decide⟩⟩

/-- C2 at a concrete SDK: the lookup returns object 1, and `deploy` is called on object 1
with the five fixed arguments. -/
theorem deploy_called_with_fixed_arguments_witness :
    replay.respond (.getContractFactory "ReaperVaultv1_4")
        [.value (.obj 1), .value (.obj 2), .value (.obj 3)] =
      (.value (.obj 1), [.value (.obj 2), .value (.obj 3)]) ∧
    (Event.invoke (.method (.obj 1) "deploy" [.str "0x1b371a952A3246dAc40530D400d86b5d36655ad1",
        .str "CUSD-AGEUR Creditum Crypt", .str "rf-CUSD-AGEUR", .num 0,
        .num (2 ^ 256 - 1)]) ∈
        run (DeployVault.script replay) [.value (.obj 1), .value (.obj 2), .value (.obj 3)] ∧
      ∀ recv args, Event.invoke (.method recv "deploy" args) ∈
          run (DeployVault.script replay) [.value (.obj 1), .value (.obj 2), .value (.obj 3)] →
        recv = .obj 1 ∧ args = [.str "0x1b371a952A3246dAc40530D400d86b5d36655ad1",
          .str "CUSD-AGEUR Creditum Crypt", .str "rf-CUSD-AGEUR", .num 0,
          .num (2 ^ 256 - 1)]) :=
  ⟨rfl, deploy_called_with_fixed_arguments replay
    [.value (.obj 1), .value (.obj 2), .value (.obj 3)] [.value (.obj 2), .value (.obj 3)]
    (.obj 1) rfl⟩

/-- C3 as stated fails: the factory lookup of `3-initialize.js` returns object 1, then
`attach` throws; the run reports the error and exits with status 1, and the initialization
entry point is never called. -/
theorem initialize_not_called_when_attach_throws :
    replay.respond (.getContractFactory "ReaperVaultv1_4")
        [.value (.obj 1), .throw (.str "attach failed")] =
      (.value (.obj 1), [.throw (.str "attach failed")]) ∧
    run (InitializeVault.script replay) [.value (.obj 1), .throw (.str "attach failed")] =
      [.invoke (.getContractFactory "ReaperVaultv1_4"), .returned (.obj 1),
        .invoke (.method (.obj 1) "attach" [.str "0x63AFF1c026b79f28990A8E81eEB8b5D4c306DB1B"]),
        .threw (.str "attach failed"), .error [.str "attach failed"], .exit 1] ∧
    ∀ recv args, Event.invoke (.method recv "initialize" args) ∉
      run (InitializeVault.script replay) [.value (.obj 1), .throw (.str "attach failed")] := by
  have ht : run (InitializeVault.script replay)
      [.value (.obj 1), .throw (.str "attach failed")] =
      [.invoke (.getContractFactory "ReaperVaultv1_4"), .returned (.obj 1),
        .invoke (.method (.obj 1) "attach" [.str "0x63AFF1c026b79f28990A8E81eEB8b5D4c306DB1B"]),
        .threw (.str "attach failed"), .error [.str "attach failed"], .exit 1] := by
    decide
  refine ⟨rfl, ht, ?_⟩
  intro recv args
  rw [ht]
  simp

/-- C3, as amended, at a concrete SDK: the lookup returns object 1, `attach` returns
object 2, and the initialization entry point is called on object 2 with the strategy
address. -/
theorem initialize_called_on_attached_vault_witness :
    Event.invoke (.method (.obj 2) "initialize"
        [.str "0xd7c7Be67819247eBB8fc8Ec8922b2d101d8514D6"]) ∈
      run (InitializeVault.script replay) [.value (.obj 1), .value (.obj 2), .value (.obj 3)] :=
  (initialize_called_on_attached_vault replay
    [.value (.obj 1), .value (.obj 2), .value (.obj 3)] [.value (.obj 2), .value (.obj 3)]
    [.value (.obj 3)] (.obj 1) (.obj 2) rfl rfl).1

/-- C4 fails on the code: in the run of `3-initialize.js` where the lookup returns object 1,
`attach` returns object 2 and the initialization call returns the transaction object 3, the
line `Vault initialized` and `process.exit(0)` directly follow the return of that call. The
three calls made are the lookup, `attach` and the initialization call: nothing is called on
the transaction object, no confirmation is waited for. -/
theorem initialize_logs_without_confirmation_wait :
    run (InitializeVault.script replay) [.value (.obj 1), .value (.obj 2), .value (.obj 3)] =
      [.invoke (.getContractFactory "ReaperVaultv1_4"), .returned (.obj 1),
        .invoke (.method (.obj 1) "attach" [.str "0x63AFF1c026b79f28990A8E81eEB8b5D4c306DB1B"]),
        .returned (.obj 2),
        .invoke (.method (.obj 2) "initialize"
          [.str "0xd7c7Be67819247eBB8fc8Ec8922b2d101d8514D6"]),
        .returned (.obj 3), .log [.str "Vault initialized"], .exit 0] ∧
    calls (run (InitializeVault.script replay)
        [.value (.obj 1), .value (.obj 2), .value (.obj 3)]) =
      [.getContractFactory "ReaperVaultv1_4",
        .method (.obj 1) "attach" [.str "0x63AFF1c026b79f28990A8E81eEB8b5D4c306DB1B"],
        .method (.obj 2) "initialize" [.str "0xd7c7Be67819247eBB8fc8Ec8922b2d101d8514D6"]] := by
  constructor <;> decide

/-- C5 at a concrete SDK: the successful run of `1-vault.js` in which `deploy` returns
object 2 logs the address of object 2. -/
theorem success_writes_one_log_line_witness :
    stdout (run (DeployVault.script replay)
        [.value (.obj 1), .value (.obj 2), .value (.obj 3)]) =
      [[.str "Vault deployed to:", .obj 102]] ∧
    stdout (run (InitializeVault.script replay)
        [.value (.obj 1), .value (.obj 2), .value (.obj 3)]) =
      [[.str "Vault initialized"]] := by
  obtain ⟨hd, hi⟩ := success_writes_one_log_line replay
    [.value (.obj 1), .value (.obj 2), .value (.obj 3)]
  obtain ⟨F, s1, V, s2, h1, h2, hout, -⟩ := hd (by decide)
  refine ⟨?_, (hi (by decide)).1⟩
  rw [hout]
  have hF : F = .obj 1 := by
    have := congrArg Prod.fst h1
    simpa [replay] using this.symm
  have hs : s1 = [.value (.obj 2), .value (.obj 3)] := by
    have := congrArg Prod.snd h1
    simpa [replay] using this.symm
  subst hF hs
  have hV : V = .obj 2 := by
    have := congrArg Prod.fst h2
    simpa [replay, DeployVault.deployCall] using this.symm
  subst hV
  rfl

/-- C6 at a concrete SDK: `deploy` throws the string `boom`; the error stream receives
exactly that string. -/
theorem thrown_error_reported_once_witness :
    stderr (run (DeployVault.script replay) [.value (.obj 1), .throw (.str "boom")]) =
      [[.str "boom"]] ∧
    stderr (run (InitializeVault.script replay) [.throw (.obj 7)]) = [[.obj 7]] :=
  ⟨((thrown_error_reported_once replay [.value (.obj 1), .throw (.str "boom")]
      (.str "boom")).1.1 (by decide)).1,
    ((thrown_error_reported_once replay [.throw (.obj 7)] (.obj 7)).2.1 (by decide)).1⟩

/-- C9 at a concrete SDK: the factory lookup of `1-vault.js` throws; it is the only call
made. -/
theorem failure_stops_script_witness :
    calls (run (DeployVault.script replay) [.throw (.str "no artifact")]) =
      [.getContractFactory "ReaperVaultv1_4"] :=
  (failure_stops_script replay [.throw (.str "no artifact")]).1.2.2.1
    (.str "no artifact") [] rfl

end CreditumFarm
